import Mathlib

/-!
Shallow embedding of `src/app.py` ("The Couple's Couch" watch tool) and proofs
about its recommendation pipeline, provider resolver, and taste-profile
operations.

Upstream HTTP responses are modelled as values supplied by an `Env`; a request
that fails (network error, timeout, non-2xx status) is an `Except.error`, which
mirrors the `try/except` blocks in the code.  Python floats (`vote_average`)
are modelled as rationals; a JSON field that may be absent is an `Option`,
and `dict.get(key, default)` becomes `Option.getD`.
-/

namespace WatchTool

/-- `MY_SERVICES` from app.py lines 20-24: the provider allow-list. -/
def MY_SERVICES : List String :=
  ["Netflix", "Amazon Prime Video", "Disney+", "Apple TV+",
   "Now TV", "BBC iPlayer", "ITVX", "Channel 4", "My5",
   "UKTV Play", "Paramount+", "Discovery+"]

/-- `MIN_VOTE_AVERAGE = 6.0` from app.py line 26. -/
def MIN_VOTE_AVERAGE : ℚ := 6

/-- `MIN_VOTE_COUNT = 50` from app.py line 27. -/
def MIN_VOTE_COUNT : ℕ := 50

/-- One element of a TMDB offer list: `{"provider_name": ...}`. -/
structure Offer where
  provider_name : String
deriving DecidableEq

/-- The per-region entry of a watch/providers response; each offer list is
absent-or-present, `dict.get(k, [])` collapses both into a list. -/
structure RegionEntry where
  flatrate : List Offer
  free : List Offer
  ads : List Offer
deriving DecidableEq

/-- A watch/providers response body: the `results` object, as an association
list from region code to region entry (a missing `results` key behaves like
an empty one under `dict.get`). -/
structure ProvidersResponse where
  results : List (String × RegionEntry)
deriving DecidableEq

/-- `{}` — the default used by `data.get('results', {}).get('GB', {})`. -/
def emptyRegion : RegionEntry := ⟨[], [], []⟩

/-- One record of a recommendations response.  `vote_average` and
`vote_count` may be absent (the code reads them with `item.get(k, 0)`). -/
structure RecItem where
  id : Int
  name : String
  vote_average : Option ℚ
  vote_count : Option ℕ
deriving DecidableEq

/-- An entry of the taste profile (`liked_items`): `{'id', 'name',
'media_type'}`. -/
structure SeedItem where
  id : Int
  name : String
  media_type : String
deriving DecidableEq

/-- A recommendation record after the pipeline annotated it: the code mutates
the item dict, setting `media_type`, `seed_name` and (only when the provider
list is non-empty) `my_providers`. -/
structure Candidate where
  item : RecItem
  media_type : String
  seed_name : String
  my_providers : Option (List String)
deriving DecidableEq

/-- The upstream service: for each (id, media_type) request the response it
would give.  `Except.error` models a request that raises in Python
(timeout, transport failure, or `raise_for_status` on non-2xx). -/
structure Env where
  recs : Int → String → Except Unit (List RecItem)
  providers : Int → String → Except Unit ProvidersResponse

/-- A network request issued by the pipeline, recorded for accounting. -/
inductive Req where
  | recReq (id : Int) (media_type : String)
  | provReq (id : Int) (media_type : String)
deriving DecidableEq

/-- `get_uk_providers` (app.py lines 76-91), given the response the upstream
would send: on any exception return `[]`; otherwise take the `GB` entry of
`results` (missing region gives `{}`), concatenate the `flatrate`, `free`
and `ads` offer lists, and keep the provider names that occur in
`MY_SERVICES`.  The Python list comprehension keeps order and multiplicity. -/
def get_uk_providers (resp : Except Unit ProvidersResponse) : List String :=
  match resp with
  | Except.error _ => []
  | Except.ok data =>
      let uk_data := (data.results.lookup "GB").getD emptyRegion
      let options := uk_data.flatrate ++ uk_data.free ++ uk_data.ads
      (options.filter (fun p => MY_SERVICES.contains p.provider_name)).map
        (fun p => p.provider_name)

/-- The mutable state of the aggregation loop in
`get_recommendations_multi_seed`: `all_valid`, `all_fallback`, `seen_ids`,
plus a log of the requests issued so far. -/
structure AggState where
  all_valid : List Candidate
  all_fallback : List Candidate
  seen_ids : List Int
  log : List Req
deriving DecidableEq

/-- The body of the `for item in results[:15]` loop (app.py lines 118-138):
skip items already seen or already liked; record the id as seen; apply the
quality gate (`vote_average` below 6.0 or `vote_count` below 50, missing
fields read as 0); look up providers; append to `all_valid` with
`my_providers` set when some provider matched, else to `all_fallback`. -/
def processItem (env : Env) (liked_ids : List Int) (media_type seed_name : String)
    (st : AggState) (item : RecItem) : AggState :=
  if item.id ∈ st.seen_ids ∨ item.id ∈ liked_ids then st
  else if item.vote_average.getD 0 < MIN_VOTE_AVERAGE then
    { st with seen_ids := item.id :: st.seen_ids }
  else if item.vote_count.getD 0 < MIN_VOTE_COUNT then
    { st with seen_ids := item.id :: st.seen_ids }
  else if (get_uk_providers (env.providers item.id media_type)).isEmpty then
    { st with seen_ids := item.id :: st.seen_ids,
              log := st.log ++ [Req.provReq item.id media_type],
              all_fallback := st.all_fallback ++
                [{ item := item, media_type := media_type, seed_name := seed_name,
                   my_providers := none }] }
  else
    { st with seen_ids := item.id :: st.seen_ids,
              log := st.log ++ [Req.provReq item.id media_type],
              all_valid := st.all_valid ++
                [{ item := item, media_type := media_type, seed_name := seed_name,
                   my_providers :=
                     some (get_uk_providers (env.providers item.id media_type)) }] }

/-- One iteration of the `for seed in seeds` loop (app.py lines 107-142):
issue the recommendations request; if it raises, warn and continue with the
state unchanged; otherwise run the item loop over the first 15 records. -/
def processSeed (env : Env) (liked_ids : List Int) (st : AggState)
    (seed : SeedItem) : AggState :=
  let st0 : AggState := { st with log := st.log ++ [Req.recReq seed.id seed.media_type] }
  match env.recs seed.id seed.media_type with
  | Except.error _ => st0
  | Except.ok results =>
      (results.take 15).foldl (processItem env liked_ids seed.media_type seed.name) st0

/-- Python `l[-3:]`: the most recently added up to `n` entries. -/
def lastN (n : Nat) (l : List α) : List α := l.drop (l.length - n)

/-- The sort key used on both sequences: `x.get('vote_average', 0)`
(app.py lines 144-145). -/
def voteKey (c : Candidate) : ℚ := c.item.vote_average.getD 0

/-- Insert `x` into `l` before the first element whose key is at most
`key x`.  Building a sort from this by `foldr` reproduces CPython
`list.sort(key=..., reverse=True)`: descending by key, equal keys keep
their original relative order. -/
def insertDesc (key : α → ℚ) (x : α) : List α → List α
  | [] => [x]
  | y :: ys => if key y ≤ key x then x :: y :: ys else y :: insertDesc key x ys

/-- Stable sort, descending by `key` (Python `sort(key=..., reverse=True)`). -/
def sortDesc (key : α → ℚ) (l : List α) : List α :=
  l.foldr (insertDesc key) []

/-- The loop of `get_recommendations_multi_seed` before sorting: fold
`processSeed` over `liked_items[-3:]` with the liked-id set precomputed
(app.py lines 98-142). -/
def collect (env : Env) (liked_items : List SeedItem) : AggState :=
  (lastN 3 liked_items).foldl
    (processSeed env (liked_items.map SeedItem.id)) ⟨[], [], [], []⟩

/-- What `get_recommendations_multi_seed` returns, with the issued requests
recorded alongside the two sequences. -/
structure RecResult where
  valid : List Candidate
  fallback : List Candidate
  log : List Req
deriving DecidableEq

/-- `get_recommendations_multi_seed` (app.py lines 93-147): empty profile
short-circuits to two empty lists with no request; otherwise run the
aggregation loop, sort each pool by `vote_average` descending (stable), and
return `all_valid[:12]` and `all_fallback[:6]`. -/
def get_recommendations_multi_seed (env : Env) (liked_items : List SeedItem) :
    RecResult :=
  if liked_items.isEmpty then ⟨[], [], []⟩
  else
    let st := collect env liked_items
    ⟨(sortDesc voteKey st.all_valid).take 12,
     (sortDesc voteKey st.all_fallback).take 6,
     st.log⟩

/-- The sidebar "add to profile" path (app.py lines 229-238): append unless
an entry equal AS A FULL RECORD (id, name and media_type) is already
present. -/
def sidebar_add (liked : List SeedItem) (new_item : SeedItem) : List SeedItem :=
  if new_item ∈ liked then liked else liked ++ [new_item]

/-- The "Already Watched" add path (app.py lines 183-196): append unless some
entry has the same `id` (names and media kinds are not compared). -/
def watched_add (liked : List SeedItem) (new_item : SeedItem) : List SeedItem :=
  if liked.any (fun l => l.id == new_item.id) then liked else liked ++ [new_item]

/-- The provider names of a region entry in offer-list order, before the
allow-list filter: the names of `flatrate ++ free ++ ads`. -/
def offerNames (e : RegionEntry) : List String :=
  (e.flatrate ++ e.free ++ e.ads).map Offer.provider_name

/-- The invariant the aggregation loop maintains on its two pools: every
collected candidate passed the quality gate and is not a liked id. -/
def OutInv (liked_ids : List Int) (st : AggState) : Prop :=
  ∀ c, (c ∈ st.all_valid ∨ c ∈ st.all_fallback) →
    MIN_VOTE_AVERAGE ≤ c.item.vote_average.getD 0 ∧
    MIN_VOTE_COUNT ≤ c.item.vote_count.getD 0 ∧
    c.item.id ∉ liked_ids

/-! Concrete data for witnesses, following the scenarios in the spec:
a Breaking Bad seed, one high-quality recommendation carried by Netflix,
one below the score threshold, one with no GB providers. -/

def seedBB : SeedItem := ⟨1396, "Breaking Bad", "tv"⟩

def recGood : RecItem := ⟨60059, "Better Call Saul", some 8, some 2000⟩

def recLow : RecItem := ⟨71446, "Low Quality", some 5, some 2000⟩

def recNoGB : RecItem := ⟨100088, "Unavailable", some 7, some 300⟩

def recNoVotes : RecItem := ⟨77, "No Votes", none, none⟩

def provNetflix : ProvidersResponse := ⟨[("GB", ⟨[⟨"Netflix"⟩], [], []⟩)]⟩

def dupResponse : ProvidersResponse := ⟨[("GB", ⟨[⟨"Netflix"⟩], [⟨"Netflix"⟩], []⟩)]⟩

def usOnlyResponse : ProvidersResponse := ⟨[("US", ⟨[⟨"Hulu"⟩], [], []⟩)]⟩

def envEx : Env :=
  ⟨fun _ _ => Except.ok [recGood, recLow, recNoGB],
   fun i _ => if i = 60059 then Except.ok provNetflix else Except.ok ⟨[]⟩⟩

def envFail : Env := ⟨fun _ _ => Except.error (), fun _ _ => Except.error ()⟩

def candEx : Candidate := ⟨recGood, "tv", "Breaking Bad", some ["Netflix"]⟩

def candFb : Candidate := ⟨recNoGB, "tv", "Breaking Bad", none⟩

/-! Helper lemmas about the stable descending sort. -/

theorem sortDesc_cons (key : α → ℚ) (y : α) (ys : List α) :
    sortDesc key (y :: ys) = insertDesc key y (sortDesc key ys) := rfl

theorem mem_insertDesc (key : α → ℚ) (x a : α) (l : List α) :
    a ∈ insertDesc key x l ↔ a = x ∨ a ∈ l := by
  induction l with
  | nil => simp [insertDesc]
  | cons y ys ih =>
      by_cases h : key y ≤ key x
      · simp [insertDesc, h]
      · simp only [insertDesc, if_neg h, List.mem_cons, ih]
        tauto

theorem mem_sortDesc (key : α → ℚ) (a : α) (l : List α) :
    a ∈ sortDesc key l ↔ a ∈ l := by
  induction l with
  | nil => simp [sortDesc]
  | cons y ys ih =>
      rw [sortDesc_cons, mem_insertDesc, ih, List.mem_cons]

theorem pairwise_insertDesc (key : α → ℚ) (x : α) (l : List α)
    (h : l.Pairwise (fun a b => key b ≤ key a)) :
    (insertDesc key x l).Pairwise (fun a b => key b ≤ key a) := by
  induction l with
  | nil => simp [insertDesc]
  | cons y ys ih =>
      rcases List.pairwise_cons.mp h with ⟨hy, hys⟩
      by_cases hxy : key y ≤ key x
      · simp only [insertDesc, if_pos hxy]
        refine List.pairwise_cons.mpr ⟨?_, h⟩
        intro b hb
        rcases List.mem_cons.mp hb with rfl | hb
        · exact hxy
        · exact le_trans (hy b hb) hxy
      · simp only [insertDesc, if_neg hxy]
        refine List.pairwise_cons.mpr ⟨?_, ih hys⟩
        intro b hb
        rcases (mem_insertDesc key x b ys).mp hb with rfl | hb
        · exact le_of_not_le hxy
        · exact hy b hb

theorem sortDesc_pairwise (key : α → ℚ) (l : List α) :
    (sortDesc key l).Pairwise (fun a b => key b ≤ key a) := by
  induction l with
  | nil => simp [sortDesc]
  | cons y ys ih =>
      rw [sortDesc_cons]
      exact pairwise_insertDesc key y _ ih

theorem filter_insertDesc (key : α → ℚ) (q : ℚ) (x : α) (l : List α) :
    (insertDesc key x l).filter (fun c => key c = q) =
      if key x = q then x :: l.filter (fun c => key c = q)
      else l.filter (fun c => key c = q) := by
  induction l with
  | nil =>
      by_cases hx : key x = q <;> simp [insertDesc, List.filter_cons, hx]
  | cons y ys ih =>
      by_cases hxy : key y ≤ key x
      · simp only [insertDesc, if_pos hxy]
        by_cases hx : key x = q <;> simp [List.filter_cons, hx]
      · simp only [insertDesc, if_neg hxy]
        by_cases hy : key y = q
        · have hx : ¬ key x = q := by
            intro hx
            exact hxy (le_of_eq (hy.trans hx.symm))
          simp [List.filter_cons, hy, hx, ih]
        · by_cases hx : key x = q <;> simp [List.filter_cons, hy, hx, ih]

theorem sortDesc_filter (key : α → ℚ) (q : ℚ) (l : List α) :
    (sortDesc key l).filter (fun c => key c = q) =
      l.filter (fun c => key c = q) := by
  induction l with
  | nil => rfl
  | cons y ys ih =>
      rw [sortDesc_cons, filter_insertDesc]
      by_cases hy : key y = q <;> simp [List.filter_cons, hy, ih]

/-! The aggregation loop maintains `OutInv`: a candidate only enters a pool
after clearing the quality gate and the liked-id exclusion. -/

theorem processItem_outInv (env : Env) (liked_ids : List Int) (mt sn : String)
    (st : AggState) (item : RecItem) (h : OutInv liked_ids st) :
    OutInv liked_ids (processItem env liked_ids mt sn st item) := by
  intro c hc
  unfold processItem at hc
  split_ifs at hc with h1 h2 h3 h4
  · exact h c hc
  · exact h c hc
  · exact h c hc
  · rcases hc with hc | hc
    · exact h c (Or.inl hc)
    · rcases List.mem_append.mp hc with hc | hc
      · exact h c (Or.inr hc)
      · rcases List.mem_singleton.mp hc with rfl
        exact ⟨not_lt.mp h2, not_lt.mp h3, fun hmem => h1 (Or.inr hmem)⟩
  · rcases hc with hc | hc
    · rcases List.mem_append.mp hc with hc | hc
      · exact h c (Or.inl hc)
      · rcases List.mem_singleton.mp hc with rfl
        exact ⟨not_lt.mp h2, not_lt.mp h3, fun hmem => h1 (Or.inr hmem)⟩
    · exact h c (Or.inr hc)

theorem foldl_processItem_outInv (env : Env) (liked_ids : List Int)
    (mt sn : String) (items : List RecItem) :
    ∀ st : AggState, OutInv liked_ids st →
      OutInv liked_ids (items.foldl (processItem env liked_ids mt sn) st) := by
  induction items with
  | nil => exact fun st h => h
  | cons i is ih =>
      exact fun st h => ih _ (processItem_outInv env liked_ids mt sn st i h)

theorem processSeed_outInv (env : Env) (liked_ids : List Int) (st : AggState)
    (seed : SeedItem) (h : OutInv liked_ids st) :
    OutInv liked_ids (processSeed env liked_ids st seed) := by
  have h0 : OutInv liked_ids
      { st with log := st.log ++ [Req.recReq seed.id seed.media_type] } :=
    fun c hc => h c hc
  simp only [processSeed]
  cases env.recs seed.id seed.media_type with
  | error e => exact h0
  | ok results => exact foldl_processItem_outInv env liked_ids _ _ _ _ h0

theorem foldl_processSeed_outInv (env : Env) (liked_ids : List Int)
    (seeds : List SeedItem) :
    ∀ st : AggState, OutInv liked_ids st →
      OutInv liked_ids (seeds.foldl (processSeed env liked_ids) st) := by
  induction seeds with
  | nil => exact fun st h => h
  | cons s ss ih =>
      exact fun st h => ih _ (processSeed_outInv env liked_ids st s h)

theorem collect_outInv (env : Env) (liked : List SeedItem) :
    OutInv (liked.map SeedItem.id) (collect env liked) := by
  apply foldl_processSeed_outInv
  intro c hc
  rcases hc with hc | hc <;> exact absurd hc (List.not_mem_nil c)

theorem output_mem_gate (env : Env) (liked : List SeedItem) (c : Candidate)
    (h : c ∈ (get_recommendations_multi_seed env liked).valid ∨
         c ∈ (get_recommendations_multi_seed env liked).fallback) :
    MIN_VOTE_AVERAGE ≤ c.item.vote_average.getD 0 ∧
    MIN_VOTE_COUNT ≤ c.item.vote_count.getD 0 ∧
    c.item.id ∉ liked.map SeedItem.id := by
  by_cases hE : liked.isEmpty
  · rcases h with h | h <;> simp [get_recommendations_multi_seed, hE] at h
  · simp only [Bool.not_eq_true] at hE
    apply collect_outInv env liked c
    rcases h with h | h
    · simp only [get_recommendations_multi_seed, hE] at h
      exact Or.inl ((mem_sortDesc _ _ _).mp
        (List.take_subset _ _ (by simpa using h)))
    · simp only [get_recommendations_multi_seed, hE] at h
      exact Or.inr ((mem_sortDesc _ _ _).mp
        (List.take_subset _ _ (by simpa using h)))

/-- C1: every candidate appearing in either output sequence of
`get_recommendations_multi_seed` has `vote_average` (read with default 0) at
least `MIN_VOTE_AVERAGE = 6.0` and `vote_count` (read with default 0) at
least `MIN_VOTE_COUNT = 50`, for every profile and every upstream
response. -/
theorem output_quality_gate (env : Env) (liked : List SeedItem) (c : Candidate)
    (h : c ∈ (get_recommendations_multi_seed env liked).valid ∨
         c ∈ (get_recommendations_multi_seed env liked).fallback) :
    MIN_VOTE_AVERAGE ≤ c.item.vote_average.getD 0 ∧
    MIN_VOTE_COUNT ≤ c.item.vote_count.getD 0 :=
  ⟨(output_mem_gate env liked c h).1, (output_mem_gate env liked c h).2.1⟩

/-- C1 witness: on the Breaking Bad example environment, the Netflix-carried
candidate is in the available sequence and clears both thresholds. -/
theorem output_quality_gate_witness :
    (candEx ∈ (get_recommendations_multi_seed envEx [seedBB]).valid ∨
     candEx ∈ (get_recommendations_multi_seed envEx [seedBB]).fallback) ∧
    (MIN_VOTE_AVERAGE ≤ candEx.item.vote_average.getD 0 ∧
     MIN_VOTE_COUNT ≤ candEx.item.vote_count.getD 0) :=
  ⟨Or.inl (by decide),
   output_quality_gate envEx [seedBB] candEx (Or.inl (by decide))⟩

/-- C2 counterexample: when the same provider appears in two offer lists of
the GB entry, `get_uk_providers` returns it twice — the result is not
duplicate-free, so it is not a set. -/
theorem resolver_duplicates_counterexample :
    get_uk_providers (Except.ok dupResponse) = ["Netflix", "Netflix"] ∧
    ¬ (get_uk_providers (Except.ok dupResponse)).Nodup := by
  exact ⟨by decide, by decide⟩

/-- C2 amended: `get_uk_providers` returns the allow-listed provider names of
the GB entry in offer-list order, keeping multiplicity; the result is
duplicate-free whenever the combined flatrate/free/ads provider names of the
GB entry are pairwise distinct (in particular it never deduplicates on its
own). -/
theorem resolver_nodup_amended (resp : ProvidersResponse)
    (h : (offerNames ((resp.results.lookup "GB").getD emptyRegion)).Nodup) :
    (get_uk_providers (Except.ok resp)).Nodup := by
  have hsub : List.Sublist (get_uk_providers (Except.ok resp))
      (offerNames ((resp.results.lookup "GB").getD emptyRegion)) :=
    (List.filter_sublist _).map _
  exact h.sublist hsub

/-- C2 amended witness: a GB entry naming Netflix once yields a
duplicate-free result. -/
theorem resolver_nodup_amended_witness :
    (offerNames ((provNetflix.results.lookup "GB").getD emptyRegion)).Nodup ∧
    (get_uk_providers (Except.ok provNetflix)).Nodup :=
  ⟨by decide, resolver_nodup_amended provNetflix (by decide)⟩

/-- C3: the sidebar add path compares full records, so two records sharing
id and media kind but differing in display name are both appended — the
id+media-kind uniqueness invariant is violated.  The "Already Watched" path,
which compares ids only, rejects the same duplicate. -/
theorem profile_uniqueness_violated :
    sidebar_add (sidebar_add [] ⟨603, "The Matrix", "movie"⟩)
        ⟨603, "Matrix", "movie"⟩ =
      [⟨603, "The Matrix", "movie"⟩, ⟨603, "Matrix", "movie"⟩] ∧
    ¬ ((sidebar_add (sidebar_add [] ⟨603, "The Matrix", "movie"⟩)
          ⟨603, "Matrix", "movie"⟩).map
        (fun s => (s.id, s.media_type))).Nodup ∧
    watched_add (watched_add [] ⟨603, "The Matrix", "movie"⟩)
        ⟨603, "Matrix", "movie"⟩ =
      [⟨603, "The Matrix", "movie"⟩] := by
  exact ⟨by decide, by decide, by decide⟩

/-- C4: no self-recommendation — no candidate in either output sequence has
the id of any entry of the input profile. -/
theorem no_self_recommendation (env : Env) (liked : List SeedItem)
    (c : Candidate)
    (h : c ∈ (get_recommendations_multi_seed env liked).valid ∨
         c ∈ (get_recommendations_multi_seed env liked).fallback) :
    ∀ s ∈ liked, c.item.id ≠ s.id := by
  intro s hs heq
  exact (output_mem_gate env liked c h).2.2 (List.mem_map.mpr ⟨s, hs, heq.symm⟩)

/-- C4 witness: the candidate produced on the example environment differs in
id from every profile entry. -/
theorem no_self_recommendation_witness :
    (candEx ∈ (get_recommendations_multi_seed envEx [seedBB]).valid ∨
     candEx ∈ (get_recommendations_multi_seed envEx [seedBB]).fallback) ∧
    (∀ s ∈ [seedBB], candEx.item.id ≠ s.id) :=
  ⟨Or.inl (by decide),
   no_self_recommendation envEx [seedBB] candEx (Or.inl (by decide))⟩

/-- C5: each output sequence equals the stable descending sort of its pool
truncated to 12 (available) or 6 (fallback); it is sorted by `vote_average`
descending, its length is so bounded, and the sort is stable — for every
score, the sorted pool lists the candidates with that score in discovery
order. -/
theorem ranked_and_truncated (env : Env) (liked : List SeedItem) :
    (get_recommendations_multi_seed env liked).valid =
      (sortDesc voteKey (collect env liked).all_valid).take 12 ∧
    (get_recommendations_multi_seed env liked).fallback =
      (sortDesc voteKey (collect env liked).all_fallback).take 6 ∧
    (get_recommendations_multi_seed env liked).valid.Pairwise
      (fun a b => voteKey b ≤ voteKey a) ∧
    (get_recommendations_multi_seed env liked).fallback.Pairwise
      (fun a b => voteKey b ≤ voteKey a) ∧
    (get_recommendations_multi_seed env liked).valid.length ≤ 12 ∧
    (get_recommendations_multi_seed env liked).fallback.length ≤ 6 ∧
    (∀ q : ℚ,
      (sortDesc voteKey (collect env liked).all_valid).filter
          (fun c => voteKey c = q) =
        (collect env liked).all_valid.filter (fun c => voteKey c = q)) ∧
    (∀ q : ℚ,
      (sortDesc voteKey (collect env liked).all_fallback).filter
          (fun c => voteKey c = q) =
        (collect env liked).all_fallback.filter (fun c => voteKey c = q)) := by
  have hv : (get_recommendations_multi_seed env liked).valid =
      (sortDesc voteKey (collect env liked).all_valid).take 12 := by
    by_cases hE : liked.isEmpty
    · have hnil : liked = [] := by simpa using hE
      subst hnil
      rfl
    · simp only [Bool.not_eq_true] at hE
      simp [get_recommendations_multi_seed, hE]
  have hf : (get_recommendations_multi_seed env liked).fallback =
      (sortDesc voteKey (collect env liked).all_fallback).take 6 := by
    by_cases hE : liked.isEmpty
    · have hnil : liked = [] := by simpa using hE
      subst hnil
      rfl
    · simp only [Bool.not_eq_true] at hE
      simp [get_recommendations_multi_seed, hE]
  refine ⟨hv, hf, ?_, ?_, ?_, ?_,
    fun q => sortDesc_filter voteKey q _, fun q => sortDesc_filter voteKey q _⟩
  · rw [hv]
    exact (sortDesc_pairwise voteKey _).sublist (List.take_sublist _ _)
  · rw [hf]
    exact (sortDesc_pairwise voteKey _).sublist (List.take_sublist _ _)
  · rw [hv, List.length_take]
    exact min_le_left _ _
  · rw [hf, List.length_take]
    exact min_le_left _ _

/-- C6: every provider name returned by `get_uk_providers` is a member of
the `MY_SERVICES` allow-list. -/
theorem providers_allowlisted (resp : Except Unit ProvidersResponse)
    (name : String) (h : name ∈ get_uk_providers resp) :
    name ∈ MY_SERVICES := by
  cases resp with
  | error e => simp [get_uk_providers] at h
  | ok data =>
      simp only [get_uk_providers] at h
      rcases List.mem_map.mp h with ⟨p, hp, rfl⟩
      exact List.elem_iff.mp (List.mem_filter.mp hp).2

/-- C6 witness: Netflix is returned for the example response and is in the
allow-list. -/
theorem providers_allowlisted_witness :
    "Netflix" ∈ get_uk_providers (Except.ok provNetflix) ∧
    "Netflix" ∈ MY_SERVICES :=
  ⟨by decide, providers_allowlisted (Except.ok provNetflix) "Netflix" (by decide)⟩

/-- C7: a providers response with no GB entry yields the empty result (the
resolver is total, so no error is raised). -/
theorem absent_region_empty (resp : ProvidersResponse)
    (h : resp.results.lookup "GB" = none) :
    get_uk_providers (Except.ok resp) = [] := by
  simp [get_uk_providers, h, emptyRegion]

/-- C7 witness: a response carrying only a US entry resolves to the empty
list. -/
theorem absent_region_empty_witness :
    usOnlyResponse.results.lookup "GB" = none ∧
    get_uk_providers (Except.ok usOnlyResponse) = [] :=
  ⟨by decide, absent_region_empty usOnlyResponse (by decide)⟩

/-- Helper for C8: folding over seeds whose recommendations request all fail
leaves both pools unchanged. -/
theorem foldl_processSeed_error (env : Env) (liked_ids : List Int) :
    ∀ seeds : List SeedItem,
      (∀ s ∈ seeds, env.recs s.id s.media_type = Except.error ()) →
      ∀ st : AggState,
        (seeds.foldl (processSeed env liked_ids) st).all_valid = st.all_valid ∧
        (seeds.foldl (processSeed env liked_ids) st).all_fallback =
          st.all_fallback := by
  intro seeds
  induction seeds with
  | nil => exact fun _ st => ⟨rfl, rfl⟩
  | cons s ss ih =>
      intro hfail st
      have hs : env.recs s.id s.media_type = Except.error () :=
        hfail s (List.mem_cons_self s ss)
      have hstep : processSeed env liked_ids st s =
          { st with log := st.log ++ [Req.recReq s.id s.media_type] } := by
        simp [processSeed, hs]
      have ih' := ih (fun t ht => hfail t (List.mem_cons_of_mem s ht))
        (processSeed env liked_ids st s)
      refine ⟨ih'.1.trans ?_, ih'.2.trans ?_⟩ <;> rw [hstep]

/-- C8: a failed recommendations request for one seed leaves the pools and
the seen-id set exactly as they were (the exception is swallowed and
aggregation continues), and when every seed request fails both returned
sequences are empty.  The embedding is a total function, so no error
propagates out of `get_recommendations_multi_seed`. -/
theorem upstream_failure_swallowed :
    (∀ (env : Env) (liked_ids : List Int) (st : AggState) (seed : SeedItem),
        env.recs seed.id seed.media_type = Except.error () →
        (processSeed env liked_ids st seed).all_valid = st.all_valid ∧
        (processSeed env liked_ids st seed).all_fallback = st.all_fallback ∧
        (processSeed env liked_ids st seed).seen_ids = st.seen_ids) ∧
    (∀ (env : Env) (liked : List SeedItem),
        (∀ s ∈ lastN 3 liked, env.recs s.id s.media_type = Except.error ()) →
        (get_recommendations_multi_seed env liked).valid = [] ∧
        (get_recommendations_multi_seed env liked).fallback = []) := by
  constructor
  · intro env liked_ids st seed hs
    simp [processSeed, hs]
  · intro env liked hfail
    by_cases hE : liked.isEmpty
    · simp [get_recommendations_multi_seed, hE]
    · simp only [Bool.not_eq_true] at hE
      have h := foldl_processSeed_error env (liked.map SeedItem.id)
        (lastN 3 liked) hfail ⟨[], [], [], []⟩
      have hv : (collect env liked).all_valid = [] := h.1
      have hf : (collect env liked).all_fallback = [] := h.2
      simp [get_recommendations_multi_seed, hE, hv, hf, sortDesc]

/-- C8 witness: with a profile of one seed and an upstream that fails every
request, both sequences are empty. -/
theorem upstream_failure_swallowed_witness :
    (∀ s ∈ lastN 3 [seedBB], envFail.recs s.id s.media_type =
      Except.error ()) ∧
    (get_recommendations_multi_seed envFail [seedBB]).valid = [] ∧
    (get_recommendations_multi_seed envFail [seedBB]).fallback = [] :=
  ⟨fun _ _ => rfl,
   upstream_failure_swallowed.2 envFail [seedBB] (fun _ _ => rfl)⟩

/-- C9: an empty profile returns two empty sequences and issues no request
at all. -/
theorem empty_profile_no_requests (env : Env) :
    get_recommendations_multi_seed env [] = ⟨[], [], []⟩ := rfl

/-- C10: a recommendation record missing `vote_average` or `vote_count` is
read as 0 for the missing field, so the quality gate drops it: processing
such an item never extends either pool, and consequently every candidate in
either output sequence has both fields present. -/
theorem missing_votes_excluded :
    (∀ (env : Env) (liked : List SeedItem) (c : Candidate),
        (c ∈ (get_recommendations_multi_seed env liked).valid ∨
         c ∈ (get_recommendations_multi_seed env liked).fallback) →
        c.item.vote_average.isSome ∧ c.item.vote_count.isSome) ∧
    (∀ (env : Env) (liked_ids : List Int) (mt sn : String) (st : AggState)
        (item : RecItem),
        item.vote_average = none ∨ item.vote_count = none →
        (processItem env liked_ids mt sn st item).all_valid = st.all_valid ∧
        (processItem env liked_ids mt sn st item).all_fallback =
          st.all_fallback) := by
  constructor
  · intro env liked c h
    have hg := output_mem_gate env liked c h
    constructor
    · cases hva : c.item.vote_average with
      | none =>
          exfalso
          have h6 := hg.1
          rw [hva] at h6
          simp only [Option.getD_none] at h6
          exact absurd h6 (by norm_num [MIN_VOTE_AVERAGE])
      | some v => rfl
    · cases hvc : c.item.vote_count with
      | none =>
          exfalso
          have h50 := hg.2.1
          rw [hvc] at h50
          simp only [Option.getD_none] at h50
          exact absurd h50 (by norm_num [MIN_VOTE_COUNT])
      | some v => rfl
  · intro env liked_ids mt sn st item hmiss
    unfold processItem
    split_ifs with h1 h2 h3 h4
    · exact ⟨rfl, rfl⟩
    · exact ⟨rfl, rfl⟩
    · exact ⟨rfl, rfl⟩
    · exfalso
      rcases hmiss with hm | hm
      · rw [hm] at h2
        simp only [Option.getD_none] at h2
        exact h2 (by norm_num [MIN_VOTE_AVERAGE])
      · rw [hm] at h3
        simp only [Option.getD_none] at h3
        exact h3 (by norm_num [MIN_VOTE_COUNT])
    · exfalso
      rcases hmiss with hm | hm
      · rw [hm] at h2
        simp only [Option.getD_none] at h2
        exact h2 (by norm_num [MIN_VOTE_AVERAGE])
      · rw [hm] at h3
        simp only [Option.getD_none] at h3
        exact h3 (by norm_num [MIN_VOTE_COUNT])

/-- C10 witness: the candidate in the available sequence of the example has
both vote fields present. -/
theorem missing_votes_excluded_witness :
    (candEx ∈ (get_recommendations_multi_seed envEx [seedBB]).valid ∨
     candEx ∈ (get_recommendations_multi_seed envEx [seedBB]).fallback) ∧
    (candEx.item.vote_average.isSome ∧ candEx.item.vote_count.isSome) :=
  ⟨Or.inl (by decide),
   missing_votes_excluded.1 envEx [seedBB] candEx (Or.inl (by decide))⟩

end WatchTool
